import Mathlib

/-!
Shallow embedding of the operator cost model in
`src/mindspore/ccsrc/parallel/auto_parallel/operator_costmodel.h`
(namespace `mindspore::parallel`).

Conventions of the embedding:
* C++ `double` costs are modelled as `Int`; every cost expression relevant here
  is a sum/product of exact integer quantities, so the additive identities and
  inequalities under study are insensitive to the numeric carrier.
* A `TensorInfo` (external, from `parallel/tensor_layout/tensor_info.h`, not
  part of the sources) is reduced to the data the cost model reads from it:
  a global shape and a per-device sliced shape, as the spec states the cost
  model only derives a size measure from the descriptor.
* Method bodies that live in `operator_costmodel.cc` (absent from the sources)
  are modelled from the spec and are marked `Modelled from the spec:` in their
  doc comments. Everything else is transcribed from the header.
-/

namespace MindsporeParallel

/-- External tensor descriptor: global shape and the per-device sliced shape
under the candidate shard layout.  The cost model reads only a size measure
derived from these. -/
structure TensorInfo where
  shape : List Nat
  slice_shape : List Nat
deriving Repr, DecidableEq

/-- Source `#define MAXIMUM_INPUT_NUMBER 100` (operator_costmodel.h:27). -/
def MAXIMUM_INPUT_NUMBER : Nat := 100

/-- Source `#define DEFAULT_DATA_TYPE_LENGTH 4` (operator_costmodel.h:28). -/
def DEFAULT_DATA_TYPE_LENGTH : Nat := 4

/-- Source `ListProduct` (operator_costmodel.h:33-40): starts from 1 and
multiplies every entry of the vector. -/
def ListProduct (vec : List Nat) : Int :=
  vec.foldl (fun result x => result * (x : Int)) 1

/-- Configuration state of the base class `OperatorCost`
(operator_costmodel.h:43-81): per-input parameter flags and per-slot byte
widths for inputs and outputs. -/
structure OperatorCost where
  is_parameter : List Bool
  inputs_type_lengths : List Nat
  outputs_type_lengths : List Nat
deriving Repr, DecidableEq

/-- Source constructor `OperatorCost::OperatorCost` (operator_costmodel.h:45-52):
pre-fills `MAXIMUM_INPUT_NUMBER` slots with `false` / `DEFAULT_DATA_TYPE_LENGTH`. -/
def OperatorCost.init : OperatorCost :=
  ⟨List.replicate MAXIMUM_INPUT_NUMBER false,
   List.replicate MAXIMUM_INPUT_NUMBER DEFAULT_DATA_TYPE_LENGTH,
   List.replicate MAXIMUM_INPUT_NUMBER DEFAULT_DATA_TYPE_LENGTH⟩

/-- Overwrite the leading entries of `old` with the entries of `new`,
element by element, leaving the tail of `old` untouched (the effect of the
loop `vec_[i] = arg[i]` for `i < arg.size()` on a pre-sized vector). -/
def overwriteLeading : List Nat → List Nat → List Nat
  | old, [] => old
  | [], _ :: _ => []
  | _ :: old, n :: news => n :: overwriteLeading old news

/-- Modelled from the spec: the body of `OperatorCost::SetInputAndOutputTypeLength`
(declared at operator_costmodel.h:56) lives in `operator_costmodel.cc`, which is
not among the sources.  The spec states it "replaces byte-width for
inputs/outputs 0..len-1 respectively; untouched slots keep the byte-width
default (4)". -/
def OperatorCost.SetInputAndOutputTypeLength (s : OperatorCost)
    (input_lengths output_lengths : List Nat) : OperatorCost :=
  ⟨s.is_parameter,
   overwriteLeading s.inputs_type_lengths input_lengths,
   overwriteLeading s.outputs_type_lengths output_lengths⟩

/-- Modelled from the spec: the body of `OperatorCost::set_is_parameter`
(declared at operator_costmodel.h:55) lives in `operator_costmodel.cc`, absent
from the sources.  The spec states it "replaces the is-parameter classification
for inputs 0..len(flags)-1". -/
def OperatorCost.set_is_parameter (s : OperatorCost) (flags : List Bool) : OperatorCost :=
  ⟨(List.range s.is_parameter.length).map
      (fun i => if h : i < flags.length then flags.get ⟨i, h⟩ else s.is_parameter.getD i false),
   s.inputs_type_lengths,
   s.outputs_type_lengths⟩

/-- Total sharded data volume of a list of tensors: for slot `i`, the sliced
element count times the configured byte width of slot `i` (byte width falls
back to the default 4 when the slot is unconfigured), summed over all slots.
This is the size measure the spec prescribes for memory formulas. -/
def tensorsVolume (widths : List Nat) : Nat → List TensorInfo → Int
  | _, [] => 0
  | i, t :: ts =>
      ListProduct t.slice_shape * ((widths.getD i DEFAULT_DATA_TYPE_LENGTH : Nat) : Int)
        + tensorsVolume widths (i + 1) ts

/-- Like `tensorsVolume`, but slots flagged as trainable parameters contribute
0: per the spec, parameters are excluded from per-step activation footprint
terms because their footprint is amortized differently. -/
def activationsVolume (widths : List Nat) (flags : List Bool) : Nat → List TensorInfo → Int
  | _, [] => 0
  | i, t :: ts =>
      (if flags.getD i false then 0
       else ListProduct t.slice_shape * ((widths.getD i DEFAULT_DATA_TYPE_LENGTH : Nat) : Int))
        + activationsVolume widths flags (i + 1) ts

/-! ### Zero-cost data-source / generator variants
`VirtualDatasetCost` (operator_costmodel.h:213-243), `GeneratorBaseCost`
(h:245-277) and `GetNextCost` (h:485-517) define all four primitives inline
in the header, each returning the literal `0.0`, and the inline additive
totals. -/

/-- Source `VirtualDatasetCost::GetForwardCommCost` (h:222-225): literal 0. -/
def VirtualDatasetCost.GetForwardCommCost (_s : OperatorCost)
    (_inputs _outputs : List TensorInfo) (_stage_id : Int) : Int := 0

/-- Source `VirtualDatasetCost::GetBackwardCommCost` (h:226-229): literal 0. -/
def VirtualDatasetCost.GetBackwardCommCost (_s : OperatorCost)
    (_inputs _outputs : List TensorInfo) (_stage_id : Int) : Int := 0

/-- Source `VirtualDatasetCost::GetForwardMemoryCost` (h:234-237): literal 0. -/
def VirtualDatasetCost.GetForwardMemoryCost (_s : OperatorCost)
    (_inputs _outputs : List TensorInfo) (_stage_id : Int) : Int := 0

/-- Source `VirtualDatasetCost::GetBackwardMemoryCost` (h:238-241): literal 0. -/
def VirtualDatasetCost.GetBackwardMemoryCost (_s : OperatorCost)
    (_inputs _outputs : List TensorInfo) (_stage_id : Int) : Int := 0

/-- Source `VirtualDatasetCost::GetCommCost` (h:218-221): forward + backward. -/
def VirtualDatasetCost.GetCommCost (s : OperatorCost)
    (inputs outputs : List TensorInfo) (stage_id : Int) : Int :=
  VirtualDatasetCost.GetForwardCommCost s inputs outputs stage_id
    + VirtualDatasetCost.GetBackwardCommCost s inputs outputs stage_id

/-- Source `VirtualDatasetCost::GetMemoryCost` (h:230-233): forward + backward. -/
def VirtualDatasetCost.GetMemoryCost (s : OperatorCost)
    (inputs outputs : List TensorInfo) (stage_id : Int) : Int :=
  VirtualDatasetCost.GetForwardMemoryCost s inputs outputs stage_id
    + VirtualDatasetCost.GetBackwardMemoryCost s inputs outputs stage_id

/-- Source `GeneratorBaseCost::GetForwardCommCost` (h:254-257): literal 0. -/
def GeneratorBaseCost.GetForwardCommCost (_s : OperatorCost)
    (_inputs _outputs : List TensorInfo) (_stage_id : Int) : Int := 0

/-- Source `GeneratorBaseCost::GetBackwardCommCost` (h:258-261): literal 0. -/
def GeneratorBaseCost.GetBackwardCommCost (_s : OperatorCost)
    (_inputs _outputs : List TensorInfo) (_stage_id : Int) : Int := 0

/-- Source `GeneratorBaseCost::GetForwardMemoryCost` (h:267-270): literal 0. -/
def GeneratorBaseCost.GetForwardMemoryCost (_s : OperatorCost)
    (_inputs _outputs : List TensorInfo) (_stage_id : Int) : Int := 0

/-- Source `GeneratorBaseCost::GetBackwardMemoryCost` (h:272-275): literal 0. -/
def GeneratorBaseCost.GetBackwardMemoryCost (_s : OperatorCost)
    (_inputs _outputs : List TensorInfo) (_stage_id : Int) : Int := 0

/-- Source `GeneratorBaseCost::GetCommCost` (h:250-253): forward + backward. -/
def GeneratorBaseCost.GetCommCost (s : OperatorCost)
    (inputs outputs : List TensorInfo) (stage_id : Int) : Int :=
  GeneratorBaseCost.GetForwardCommCost s inputs outputs stage_id
    + GeneratorBaseCost.GetBackwardCommCost s inputs outputs stage_id

/-- Source `GeneratorBaseCost::GetMemoryCost` (h:262-265): forward + backward. -/
def GeneratorBaseCost.GetMemoryCost (s : OperatorCost)
    (inputs outputs : List TensorInfo) (stage_id : Int) : Int :=
  GeneratorBaseCost.GetForwardMemoryCost s inputs outputs stage_id
    + GeneratorBaseCost.GetBackwardMemoryCost s inputs outputs stage_id

/-- Source `GetNextCost::GetForwardCommCost` (h:494-497): literal 0. -/
def GetNextCost.GetForwardCommCost (_s : OperatorCost)
    (_inputs _outputs : List TensorInfo) (_stage_id : Int) : Int := 0

/-- Source `GetNextCost::GetBackwardCommCost` (h:498-501): literal 0. -/
def GetNextCost.GetBackwardCommCost (_s : OperatorCost)
    (_inputs _outputs : List TensorInfo) (_stage_id : Int) : Int := 0

/-- Source `GetNextCost::GetForwardMemoryCost` (h:507-510): literal 0. -/
def GetNextCost.GetForwardMemoryCost (_s : OperatorCost)
    (_inputs _outputs : List TensorInfo) (_stage_id : Int) : Int := 0

/-- Source `GetNextCost::GetBackwardMemoryCost` (h:512-515): literal 0. -/
def GetNextCost.GetBackwardMemoryCost (_s : OperatorCost)
    (_inputs _outputs : List TensorInfo) (_stage_id : Int) : Int := 0

/-- Source `GetNextCost::GetCommCost` (h:490-493): forward + backward. -/
def GetNextCost.GetCommCost (s : OperatorCost)
    (inputs outputs : List TensorInfo) (stage_id : Int) : Int :=
  GetNextCost.GetForwardCommCost s inputs outputs stage_id
    + GetNextCost.GetBackwardCommCost s inputs outputs stage_id

/-- Source `GetNextCost::GetMemoryCost` (h:502-505): forward + backward. -/
def GetNextCost.GetMemoryCost (s : OperatorCost)
    (inputs outputs : List TensorInfo) (stage_id : Int) : Int :=
  GetNextCost.GetForwardMemoryCost s inputs outputs stage_id
    + GetNextCost.GetBackwardMemoryCost s inputs outputs stage_id

/-! ### BatchParallelCost (operator_costmodel.h:185-211)
Communication primitives are inline literal 0 in the header; the memory
primitives are declared only (bodies in the missing `operator_costmodel.cc`)
and are modelled from the spec; both totals are inline and additive. -/

/-- Source `BatchParallelCost::GetForwardCommCost` (h:194-197): literal 0. -/
def BatchParallelCost.GetForwardCommCost (_s : OperatorCost)
    (_inputs _outputs : List TensorInfo) (_stage_id : Int) : Int := 0

/-- Source `BatchParallelCost::GetBackwardCommCost` (h:198-201): literal 0. -/
def BatchParallelCost.GetBackwardCommCost (_s : OperatorCost)
    (_inputs _outputs : List TensorInfo) (_stage_id : Int) : Int := 0

/-- Modelled from the spec: the body of `BatchParallelCost::GetForwardMemoryCost`
(declared at h:206-207) is in the missing `operator_costmodel.cc`.  Per the
spec, memory cost is "computed normally": element counts of the relevant
tensors scaled by the configured per-element byte width, with parameter inputs
excluded from the per-step activation terms. -/
def BatchParallelCost.GetForwardMemoryCost (s : OperatorCost)
    (inputs outputs : List TensorInfo) (_stage_id : Int) : Int :=
  activationsVolume s.inputs_type_lengths s.is_parameter 0 inputs
    + tensorsVolume s.outputs_type_lengths 0 outputs

/-- Modelled from the spec: the body of `BatchParallelCost::GetBackwardMemoryCost`
(declared at h:208-209) is in the missing `operator_costmodel.cc`.  Per the
spec, the backward footprint covers the gradients of the per-step activation
inputs (parameters amortized differently). -/
def BatchParallelCost.GetBackwardMemoryCost (s : OperatorCost)
    (inputs _outputs : List TensorInfo) (_stage_id : Int) : Int :=
  activationsVolume s.inputs_type_lengths s.is_parameter 0 inputs

/-- Source `BatchParallelCost::GetCommCost` (h:190-193): forward + backward. -/
def BatchParallelCost.GetCommCost (s : OperatorCost)
    (inputs outputs : List TensorInfo) (stage_id : Int) : Int :=
  BatchParallelCost.GetForwardCommCost s inputs outputs stage_id
    + BatchParallelCost.GetBackwardCommCost s inputs outputs stage_id

/-- Source `BatchParallelCost::GetMemoryCost` (h:202-205): forward + backward. -/
def BatchParallelCost.GetMemoryCost (s : OperatorCost)
    (inputs outputs : List TensorInfo) (stage_id : Int) : Int :=
  BatchParallelCost.GetForwardMemoryCost s inputs outputs stage_id
    + BatchParallelCost.GetBackwardMemoryCost s inputs outputs stage_id

/-! ### ReduceMethodCost (operator_costmodel.h:445-473) and
ReduceMeanCost (h:475-483)
The header supplies inline: the additive `GetCommCost` (h:450-453), a
`GetMemoryCost` that sums `GetForwardMemoryCost` with `GetBackwardCommCost`
(h:458-461), a `GetBackwardMemoryCost` returning literal 0 (h:464-467), the
setter `set_cross_batch` (h:468) and the member initializer
`cross_batch_ = false` (h:471).  The bodies of `GetForwardCommCost`,
`GetBackwardCommCost` and `GetForwardMemoryCost` are in the missing
`operator_costmodel.cc` and are modelled from the spec.
`ReduceMeanCost` derives from `ReduceMethodCost`, adds no state, and
overrides only `GetForwardMemoryCost` (h:480-481). -/

/-- Instance state of `ReduceMethodCost`: the inherited `OperatorCost`
configuration plus the `cross_batch_` member (h:471). -/
structure ReduceMethodCost where
  base : OperatorCost
  cross_batch : Bool
deriving Repr, DecidableEq

/-- Freshly constructed `ReduceMethodCost`: default `OperatorCost` constructor
plus the member initializer `bool cross_batch_ = false;` (h:471). -/
def ReduceMethodCost.init : ReduceMethodCost :=
  ⟨OperatorCost.init, false⟩

/-- Source `ReduceMethodCost::set_cross_batch` (h:468): assigns the flag. -/
def ReduceMethodCost.set_cross_batch (r : ReduceMethodCost) (cb : Bool) : ReduceMethodCost :=
  ⟨r.base, cb⟩

/-- Modelled from the spec: the body of `ReduceMethodCost::GetForwardCommCost`
(declared at h:454-455) is in the missing `operator_costmodel.cc`.  Per the
spec, a reduction whose sharding requires a cross-device reduce (the first
input's global and sliced shapes differ, i.e. the tensor is actually split)
contributes a cost proportional to the sharded output's size scaled by its
byte width, and otherwise contributes 0; the `cross_batch` flag is read by the
backward-communication formula only. -/
def ReduceMethodCost.GetForwardCommCost (r : ReduceMethodCost)
    (inputs outputs : List TensorInfo) (_stage_id : Int) : Int :=
  match inputs, outputs with
  | input0 :: _, output0 :: _ =>
      if input0.slice_shape = input0.shape then 0
      else ListProduct output0.slice_shape
        * ((r.base.outputs_type_lengths.getD 0 DEFAULT_DATA_TYPE_LENGTH : Nat) : Int)
  | _, _ => 0

/-- Modelled from the spec: the body of `ReduceMethodCost::GetBackwardCommCost`
(declared at h:456-457) is in the missing `operator_costmodel.cc`.  Per the
spec, backward communication synchronizes the gradient of a trainable
parameter input (a volume proportional to the sharded tensor's size times its
byte width), and the `cross_batch` flag perturbs this formula: a cross-batch
reduction changes which devices must exchange gradients, adding the sharded
output's gradient volume to the exchange, so that toggling the flag changes
the returned value for at least one representative input, as the spec
requires. -/
def ReduceMethodCost.GetBackwardCommCost (r : ReduceMethodCost)
    (inputs outputs : List TensorInfo) (_stage_id : Int) : Int :=
  (match inputs with
   | input0 :: _ =>
       if r.base.is_parameter.getD 0 false then
         ListProduct input0.slice_shape
           * ((r.base.inputs_type_lengths.getD 0 DEFAULT_DATA_TYPE_LENGTH : Nat) : Int)
       else 0
   | [] => 0)
  + (match outputs with
     | output0 :: _ =>
         if r.cross_batch then
           ListProduct output0.slice_shape
             * ((r.base.outputs_type_lengths.getD 0 DEFAULT_DATA_TYPE_LENGTH : Nat) : Int)
         else 0
     | [] => 0)

/-- Modelled from the spec: the body of `ReduceMethodCost::GetForwardMemoryCost`
(declared at h:462-463) is in the missing `operator_costmodel.cc`.  Per the
spec, memory cost is derived from the element counts of the relevant tensors
scaled by the configured per-element byte widths, with parameter inputs
excluded from the per-step activation terms; the `cross_batch` flag must not
affect memory formulas, so it is not read here. -/
def ReduceMethodCost.GetForwardMemoryCost (r : ReduceMethodCost)
    (inputs outputs : List TensorInfo) (_stage_id : Int) : Int :=
  activationsVolume r.base.inputs_type_lengths r.base.is_parameter 0 inputs
    + tensorsVolume r.base.outputs_type_lengths 0 outputs

/-- Source `ReduceMethodCost::GetBackwardMemoryCost` (h:464-467): literal 0. -/
def ReduceMethodCost.GetBackwardMemoryCost (_r : ReduceMethodCost)
    (_inputs _outputs : List TensorInfo) (_stage_id : Int) : Int := 0

/-- Source `ReduceMethodCost::GetCommCost` (h:450-453): forward + backward. -/
def ReduceMethodCost.GetCommCost (r : ReduceMethodCost)
    (inputs outputs : List TensorInfo) (stage_id : Int) : Int :=
  ReduceMethodCost.GetForwardCommCost r inputs outputs stage_id
    + ReduceMethodCost.GetBackwardCommCost r inputs outputs stage_id

/-- Source `ReduceMethodCost::GetMemoryCost` (h:458-461).  Transcribed
verbatim: the header body returns
`GetForwardMemoryCost(...) + GetBackwardCommCost(...)` — the second summand is
the backward COMMUNICATION cost, not `GetBackwardMemoryCost`. -/
def ReduceMethodCost.GetMemoryCost (r : ReduceMethodCost)
    (inputs outputs : List TensorInfo) (stage_id : Int) : Int :=
  ReduceMethodCost.GetForwardMemoryCost r inputs outputs stage_id
    + ReduceMethodCost.GetBackwardCommCost r inputs outputs stage_id

/-- State of `ReduceMeanCost` (h:475-483): derives from `ReduceMethodCost`
and declares no additional members. -/
abbrev ReduceMeanCost := ReduceMethodCost

/-- Freshly constructed `ReduceMeanCost`: the inherited constructors. -/
def ReduceMeanCost.init : ReduceMeanCost :=
  ReduceMethodCost.init

/-- Inherited `GetForwardCommCost`: `ReduceMeanCost` does not override it. -/
def ReduceMeanCost.GetForwardCommCost : ReduceMeanCost → List TensorInfo → List TensorInfo → Int → Int :=
  ReduceMethodCost.GetForwardCommCost

/-- Inherited `GetBackwardCommCost`: `ReduceMeanCost` does not override it. -/
def ReduceMeanCost.GetBackwardCommCost : ReduceMeanCost → List TensorInfo → List TensorInfo → Int → Int :=
  ReduceMethodCost.GetBackwardCommCost

/-- Inherited `GetBackwardMemoryCost`: `ReduceMeanCost` does not override it. -/
def ReduceMeanCost.GetBackwardMemoryCost : ReduceMeanCost → List TensorInfo → List TensorInfo → Int → Int :=
  ReduceMethodCost.GetBackwardMemoryCost

/-- Modelled from the spec: the body of `ReduceMeanCost::GetForwardMemoryCost`
(the one override, declared at h:480-481) is in the missing
`operator_costmodel.cc`.  The spec fixes only that the mean reduction
"overrides only its forward memory formula (its divisor differs from a plain
sum-reduction)"; modelled as the plain reduction's formula plus the extra
output-sized buffer the mean materializes when it applies its divisor to the
accumulated sum. -/
def ReduceMeanCost.GetForwardMemoryCost (r : ReduceMeanCost)
    (inputs outputs : List TensorInfo) (stage_id : Int) : Int :=
  ReduceMethodCost.GetForwardMemoryCost r inputs outputs stage_id
    + tensorsVolume r.base.outputs_type_lengths 0 outputs

/-- Inherited `GetCommCost` (h:450-453) under virtual dispatch: the inherited
body calls the (unchanged) forward and backward communication formulas. -/
def ReduceMeanCost.GetCommCost (r : ReduceMeanCost)
    (inputs outputs : List TensorInfo) (stage_id : Int) : Int :=
  ReduceMeanCost.GetForwardCommCost r inputs outputs stage_id
    + ReduceMeanCost.GetBackwardCommCost r inputs outputs stage_id

/-- Inherited `GetMemoryCost` (h:458-461) under virtual dispatch: the
inherited body calls `GetForwardMemoryCost` — which dispatches to the
`ReduceMeanCost` override — plus `GetBackwardCommCost`. -/
def ReduceMeanCost.GetMemoryCost (r : ReduceMeanCost)
    (inputs outputs : List TensorInfo) (stage_id : Int) : Int :=
  ReduceMeanCost.GetForwardMemoryCost r inputs outputs stage_id
    + ReduceMeanCost.GetBackwardCommCost r inputs outputs stage_id

/-! ### Concrete sample data used by the closed theorems below. -/

/-- Sample descriptor: a one-dimensional tensor of 2 elements, unsplit. -/
def tensor2 : TensorInfo := ⟨[2], [2]⟩

/-- Sample descriptor: a one-dimensional tensor of 4 elements, unsplit. -/
def tensor4 : TensorInfo := ⟨[4], [4]⟩

/-- A default-configured `ReduceMethodCost` after `set_cross_batch(true)`. -/
def rmCross : ReduceMethodCost :=
  ReduceMethodCost.set_cross_batch ReduceMethodCost.init true

/-! ### Helper lemmas -/

/-- Every position below the length of a replicated list reads the replicated
value back through `getD`. -/
theorem getD_replicate_of_lt {α : Type} (v d : α) :
    ∀ (n i : Nat), i < n → (List.replicate n v).getD i d = v := by
  intro n
  induction n with
  | zero => intro i h; exact absurd h (Nat.not_lt_zero i)
  | succ m ih =>
    intro i h
    cases i with
    | zero => rfl
    | succ j => exact ih j (Nat.lt_of_succ_lt_succ h)

/-- Positions covered by the overwriting list read the overwriting value. -/
theorem overwriteLeading_getD_of_lt :
    ∀ (old new : List Nat) (i d : Nat), i < new.length → i < old.length →
      (overwriteLeading old new).getD i d = new.getD i d := by
  intro old
  induction old with
  | nil => intro new i d _ h2; exact absurd h2 (Nat.not_lt_zero i)
  | cons a old ih =>
    intro new i d h1 h2
    cases new with
    | nil => exact absurd h1 (Nat.not_lt_zero i)
    | cons n news =>
      cases i with
      | zero => rfl
      | succ j => exact ih news j d (Nat.lt_of_succ_lt_succ h1) (Nat.lt_of_succ_lt_succ h2)

/-- Positions past the overwriting list keep the original value. -/
theorem overwriteLeading_getD_of_ge :
    ∀ (old new : List Nat) (i d : Nat), new.length ≤ i →
      (overwriteLeading old new).getD i d = old.getD i d := by
  intro old
  induction old with
  | nil => intro new i d _; cases new <;> rfl
  | cons a old ih =>
    intro new i d h
    cases new with
    | nil => rfl
    | cons n news =>
      cases i with
      | zero => exact absurd h (Nat.not_succ_le_zero _)
      | succ j => exact ih news j d (Nat.le_of_succ_le_succ h)

/-- Two `OperatorCost` configurations with equal fields are equal. -/
theorem OperatorCost.eq_of_config_fields : ∀ (a b : OperatorCost),
    a.is_parameter = b.is_parameter →
    a.inputs_type_lengths = b.inputs_type_lengths →
    a.outputs_type_lengths = b.outputs_type_lengths → a = b
  | ⟨_, _, _⟩, ⟨_, _, _⟩, rfl, rfl, rfl => rfl

/-- Two `ReduceMethodCost` instances with equal configuration and flag are
equal. -/
theorem ReduceMethodCost.eq_of_flag_fields : ∀ (a b : ReduceMethodCost),
    a.base = b.base → a.cross_batch = b.cross_batch → a = b
  | ⟨_, _⟩, ⟨_, _⟩, rfl, rfl => rfl

/-! ### Claim theorems -/

/-- C1: the claim states that every catalogued cost variant satisfies
`GetMemoryCost = GetForwardMemoryCost + GetBackwardMemoryCost`.  This fails on
`ReduceMethodCost`: the header total (operator_costmodel.h:458-461) sums
`GetForwardMemoryCost` with `GetBackwardCommCost` instead of
`GetBackwardMemoryCost`.  Evaluated at a concrete failing input — the default
configuration after `set_cross_batch(true)`, one unsplit 2-element input and
one 2-element output, stage 0 — the memory total is 24 while forward + backward
memory is 16 + 0. -/
theorem C1_reduce_method_memory_total_mismatch :
    ReduceMethodCost.GetMemoryCost rmCross [tensor2] [tensor2] 0
      ≠ ReduceMethodCost.GetForwardMemoryCost rmCross [tensor2] [tensor2] 0
        + ReduceMethodCost.GetBackwardMemoryCost rmCross [tensor2] [tensor2] 0 := by
  decide

/-- C2: the claim states that `GetForwardMemoryCost`, `GetBackwardMemoryCost`
and `GetMemoryCost` of `ReduceMethodCost` are unchanged between two runs that
differ only in the `cross_batch` flag.  The first two are indeed flag-invariant
for every configuration and input, but `GetMemoryCost` is not: its header body
(operator_costmodel.h:460) adds `GetBackwardCommCost`, which reads the flag, so
toggling `set_cross_batch` from `false` to `true` on the default configuration
changes `GetMemoryCost` on a 2-element input/output pair from 16 to 24. -/
theorem C2_cross_batch_flag_and_memory :
    (∀ (b : OperatorCost) (i o : List TensorInfo) (st : Int),
        ReduceMethodCost.GetForwardMemoryCost ⟨b, true⟩ i o st
          = ReduceMethodCost.GetForwardMemoryCost ⟨b, false⟩ i o st
        ∧ ReduceMethodCost.GetBackwardMemoryCost ⟨b, true⟩ i o st
          = ReduceMethodCost.GetBackwardMemoryCost ⟨b, false⟩ i o st)
    ∧ ReduceMethodCost.GetMemoryCost rmCross [tensor2] [tensor2] 0
        ≠ ReduceMethodCost.GetMemoryCost ReduceMethodCost.init [tensor2] [tensor2] 0 :=
  ⟨fun _b _i _o _st => ⟨rfl, rfl⟩, by decide⟩

/-- C3: `ReduceMeanCost` overrides only the forward memory formula of
`ReduceMethodCost`: on every identically configured pair and all inputs,
outputs and stage id, `GetForwardCommCost`, `GetBackwardCommCost` and
`GetBackwardMemoryCost` agree between the two variants, while
`GetForwardMemoryCost` differs on a concrete input (24 vs 16 on a default
configuration with a 2-element input and output). -/
theorem C3_reduce_mean_overrides_only_forward_memory :
    (∀ (r : ReduceMethodCost) (i o : List TensorInfo) (st : Int),
        ReduceMeanCost.GetForwardCommCost r i o st
          = ReduceMethodCost.GetForwardCommCost r i o st
        ∧ ReduceMeanCost.GetBackwardCommCost r i o st
          = ReduceMethodCost.GetBackwardCommCost r i o st
        ∧ ReduceMeanCost.GetBackwardMemoryCost r i o st
          = ReduceMethodCost.GetBackwardMemoryCost r i o st)
    ∧ ReduceMeanCost.GetForwardMemoryCost ReduceMeanCost.init [tensor2] [tensor2] 0
        ≠ ReduceMethodCost.GetForwardMemoryCost ReduceMethodCost.init [tensor2] [tensor2] 0 :=
  ⟨fun _r _i _o _st => ⟨rfl, rfl, rfl⟩, by decide⟩

/-- C4: a freshly constructed cost instance, before `set_is_parameter` or
`SetInputAndOutputTypeLength` is invoked, reports the byte width
`DEFAULT_DATA_TYPE_LENGTH = 4` for every input slot and every output slot
(the constructor pre-fills all `MAXIMUM_INPUT_NUMBER` slots). -/
theorem C4_fresh_instance_default_byte_width (i : Nat) (h : i < MAXIMUM_INPUT_NUMBER) :
    OperatorCost.init.inputs_type_lengths.getD i 0 = DEFAULT_DATA_TYPE_LENGTH
    ∧ OperatorCost.init.outputs_type_lengths.getD i 0 = DEFAULT_DATA_TYPE_LENGTH :=
  ⟨getD_replicate_of_lt DEFAULT_DATA_TYPE_LENGTH 0 MAXIMUM_INPUT_NUMBER i h,
   getD_replicate_of_lt DEFAULT_DATA_TYPE_LENGTH 0 MAXIMUM_INPUT_NUMBER i h⟩

/-- Witness for C4: the hypothesis holds at slot 0 and the conclusion
evaluates there. -/
theorem C4_fresh_instance_default_byte_width_witness :
    OperatorCost.init.inputs_type_lengths.getD 0 0 = DEFAULT_DATA_TYPE_LENGTH
    ∧ OperatorCost.init.outputs_type_lengths.getD 0 0 = DEFAULT_DATA_TYPE_LENGTH :=
  C4_fresh_instance_default_byte_width 0 (by decide)

/-- C5: for each data-source/generator variant (`VirtualDatasetCost`,
`GeneratorBaseCost`, `GetNextCost`), all four cost primitives return 0 for
every configuration, every input and output descriptor sequence, and every
stage id. -/
theorem C5_data_source_variants_all_zero (s : OperatorCost)
    (i o : List TensorInfo) (st : Int) :
    VirtualDatasetCost.GetForwardCommCost s i o st = 0
    ∧ VirtualDatasetCost.GetBackwardCommCost s i o st = 0
    ∧ VirtualDatasetCost.GetForwardMemoryCost s i o st = 0
    ∧ VirtualDatasetCost.GetBackwardMemoryCost s i o st = 0
    ∧ GeneratorBaseCost.GetForwardCommCost s i o st = 0
    ∧ GeneratorBaseCost.GetBackwardCommCost s i o st = 0
    ∧ GeneratorBaseCost.GetForwardMemoryCost s i o st = 0
    ∧ GeneratorBaseCost.GetBackwardMemoryCost s i o st = 0
    ∧ GetNextCost.GetForwardCommCost s i o st = 0
    ∧ GetNextCost.GetBackwardCommCost s i o st = 0
    ∧ GetNextCost.GetForwardMemoryCost s i o st = 0
    ∧ GetNextCost.GetBackwardMemoryCost s i o st = 0 :=
  ⟨rfl, rfl, rfl, rfl, rfl, rfl, rfl, rfl, rfl, rfl, rfl, rfl⟩

/-- C6: `BatchParallelCost` returns 0 for forward and backward communication
cost on every configuration, descriptor sequences and stage id, while its
memory cost varies with tensor size: a 2-element and a 4-element input/output
pair yield different `GetMemoryCost` values (24 vs 48 under the default
configuration). -/
theorem C6_batch_parallel_zero_comm_memory_varies :
    (∀ (s : OperatorCost) (i o : List TensorInfo) (st : Int),
        BatchParallelCost.GetForwardCommCost s i o st = 0
        ∧ BatchParallelCost.GetBackwardCommCost s i o st = 0)
    ∧ BatchParallelCost.GetMemoryCost OperatorCost.init [tensor2] [tensor2] 0
        ≠ BatchParallelCost.GetMemoryCost OperatorCost.init [tensor4] [tensor4] 0 :=
  ⟨fun _s _i _o _st => ⟨rfl, rfl⟩, by decide⟩

/-- C7: after `SetInputAndOutputTypeLength` with vectors no longer than the
slot count, every covered slot reports the supplied byte width and every
trailing slot still reports the default byte width 4, for inputs and outputs
alike. -/
theorem C7_set_type_length_covered_and_trailing
    (input_lengths output_lengths : List Nat) (i : Nat)
    (hin : input_lengths.length ≤ MAXIMUM_INPUT_NUMBER)
    (hout : output_lengths.length ≤ MAXIMUM_INPUT_NUMBER) :
    (i < input_lengths.length →
      (OperatorCost.init.SetInputAndOutputTypeLength input_lengths
        output_lengths).inputs_type_lengths.getD i 0 = input_lengths.getD i 0)
    ∧ (input_lengths.length ≤ i → i < MAXIMUM_INPUT_NUMBER →
      (OperatorCost.init.SetInputAndOutputTypeLength input_lengths
        output_lengths).inputs_type_lengths.getD i 0 = DEFAULT_DATA_TYPE_LENGTH)
    ∧ (i < output_lengths.length →
      (OperatorCost.init.SetInputAndOutputTypeLength input_lengths
        output_lengths).outputs_type_lengths.getD i 0 = output_lengths.getD i 0)
    ∧ (output_lengths.length ≤ i → i < MAXIMUM_INPUT_NUMBER →
      (OperatorCost.init.SetInputAndOutputTypeLength input_lengths
        output_lengths).outputs_type_lengths.getD i 0 = DEFAULT_DATA_TYPE_LENGTH) := by
  refine ⟨?_, ?_, ?_, ?_⟩
  · intro hcov
    exact overwriteLeading_getD_of_lt
      (List.replicate MAXIMUM_INPUT_NUMBER DEFAULT_DATA_TYPE_LENGTH) input_lengths i 0 hcov
      (by rw [List.length_replicate]; exact Nat.lt_of_lt_of_le hcov hin)
  · intro hge hlt
    have h1 :
        (OperatorCost.init.SetInputAndOutputTypeLength input_lengths
          output_lengths).inputs_type_lengths.getD i 0
          = (List.replicate MAXIMUM_INPUT_NUMBER DEFAULT_DATA_TYPE_LENGTH).getD i 0 :=
      overwriteLeading_getD_of_ge
        (List.replicate MAXIMUM_INPUT_NUMBER DEFAULT_DATA_TYPE_LENGTH) input_lengths i 0 hge
    rw [h1]
    exact getD_replicate_of_lt DEFAULT_DATA_TYPE_LENGTH 0 MAXIMUM_INPUT_NUMBER i hlt
  · intro hcov
    exact overwriteLeading_getD_of_lt
      (List.replicate MAXIMUM_INPUT_NUMBER DEFAULT_DATA_TYPE_LENGTH) output_lengths i 0 hcov
      (by rw [List.length_replicate]; exact Nat.lt_of_lt_of_le hcov hout)
  · intro hge hlt
    have h1 :
        (OperatorCost.init.SetInputAndOutputTypeLength input_lengths
          output_lengths).outputs_type_lengths.getD i 0
          = (List.replicate MAXIMUM_INPUT_NUMBER DEFAULT_DATA_TYPE_LENGTH).getD i 0 :=
      overwriteLeading_getD_of_ge
        (List.replicate MAXIMUM_INPUT_NUMBER DEFAULT_DATA_TYPE_LENGTH) output_lengths i 0 hge
    rw [h1]
    exact getD_replicate_of_lt DEFAULT_DATA_TYPE_LENGTH 0 MAXIMUM_INPUT_NUMBER i hlt

/-- Witness for C7: configuring inputs with `[8, 2]` and outputs with `[16]`
on a fresh instance, slot 1 of the inputs reports the supplied value 2 while
slot 1 of the outputs, which the call did not cover, still reports the
default 4. -/
theorem C7_set_type_length_covered_and_trailing_witness :
    (OperatorCost.init.SetInputAndOutputTypeLength [8, 2]
      [16]).inputs_type_lengths.getD 1 0 = [8, 2].getD 1 0
    ∧ (OperatorCost.init.SetInputAndOutputTypeLength [8, 2]
      [16]).outputs_type_lengths.getD 1 0 = DEFAULT_DATA_TYPE_LENGTH :=
  ⟨(C7_set_type_length_covered_and_trailing [8, 2] [16] 1 (by decide) (by decide)).1
      (by decide),
   (C7_set_type_length_covered_and_trailing [8, 2] [16] 1 (by decide) (by decide)).2.2.2
      (by decide) (by decide)⟩

/-- C8: every embedded cost query is a pure, deterministic function of the
instance configuration (`is_parameter`, the byte-width vectors, and — for the
reduction family — the `cross_batch` flag) together with the call arguments:
two instances agreeing on those configuration components return identical
values on all six queries of every embedded variant and on both totals of the
zero-cost variants; as embedded, a query consumes the configuration immutably
and returns only a number, so no query can change any configuration field. -/
theorem C8_cost_queries_pure (r1 r2 : ReduceMethodCost)
    (hp : r1.base.is_parameter = r2.base.is_parameter)
    (hi : r1.base.inputs_type_lengths = r2.base.inputs_type_lengths)
    (ho : r1.base.outputs_type_lengths = r2.base.outputs_type_lengths)
    (hc : r1.cross_batch = r2.cross_batch) :
    ∀ (i o : List TensorInfo) (st : Int),
      ReduceMethodCost.GetCommCost r1 i o st = ReduceMethodCost.GetCommCost r2 i o st
      ∧ ReduceMethodCost.GetForwardCommCost r1 i o st
          = ReduceMethodCost.GetForwardCommCost r2 i o st
      ∧ ReduceMethodCost.GetBackwardCommCost r1 i o st
          = ReduceMethodCost.GetBackwardCommCost r2 i o st
      ∧ ReduceMethodCost.GetMemoryCost r1 i o st
          = ReduceMethodCost.GetMemoryCost r2 i o st
      ∧ ReduceMethodCost.GetForwardMemoryCost r1 i o st
          = ReduceMethodCost.GetForwardMemoryCost r2 i o st
      ∧ ReduceMethodCost.GetBackwardMemoryCost r1 i o st
          = ReduceMethodCost.GetBackwardMemoryCost r2 i o st
      ∧ ReduceMeanCost.GetMemoryCost r1 i o st = ReduceMeanCost.GetMemoryCost r2 i o st
      ∧ ReduceMeanCost.GetForwardMemoryCost r1 i o st
          = ReduceMeanCost.GetForwardMemoryCost r2 i o st
      ∧ BatchParallelCost.GetCommCost r1.base i o st
          = BatchParallelCost.GetCommCost r2.base i o st
      ∧ BatchParallelCost.GetMemoryCost r1.base i o st
          = BatchParallelCost.GetMemoryCost r2.base i o st
      ∧ VirtualDatasetCost.GetCommCost r1.base i o st
          = VirtualDatasetCost.GetCommCost r2.base i o st
      ∧ VirtualDatasetCost.GetMemoryCost r1.base i o st
          = VirtualDatasetCost.GetMemoryCost r2.base i o st
      ∧ GeneratorBaseCost.GetCommCost r1.base i o st
          = GeneratorBaseCost.GetCommCost r2.base i o st
      ∧ GetNextCost.GetCommCost r1.base i o st = GetNextCost.GetCommCost r2.base i o st := by
  have hb : r1.base = r2.base := OperatorCost.eq_of_config_fields r1.base r2.base hp hi ho
  have hr : r1 = r2 := ReduceMethodCost.eq_of_flag_fields r1 r2 hb hc
  subst hr
  intro i o st
  exact ⟨rfl, rfl, rfl, rfl, rfl, rfl, rfl, rfl, rfl, rfl, rfl, rfl, rfl, rfl⟩

/-- Witness for C8: the purity theorem applied to the freshly constructed
reduction instance, an empty descriptor pair and stage 0. -/
theorem C8_cost_queries_pure_witness :
    ReduceMethodCost.GetCommCost ReduceMethodCost.init [] [] 0
      = ReduceMethodCost.GetCommCost ReduceMethodCost.init [] [] 0
    ∧ ReduceMethodCost.GetForwardCommCost ReduceMethodCost.init [] [] 0
        = ReduceMethodCost.GetForwardCommCost ReduceMethodCost.init [] [] 0
    ∧ ReduceMethodCost.GetBackwardCommCost ReduceMethodCost.init [] [] 0
        = ReduceMethodCost.GetBackwardCommCost ReduceMethodCost.init [] [] 0
    ∧ ReduceMethodCost.GetMemoryCost ReduceMethodCost.init [] [] 0
        = ReduceMethodCost.GetMemoryCost ReduceMethodCost.init [] [] 0
    ∧ ReduceMethodCost.GetForwardMemoryCost ReduceMethodCost.init [] [] 0
        = ReduceMethodCost.GetForwardMemoryCost ReduceMethodCost.init [] [] 0
    ∧ ReduceMethodCost.GetBackwardMemoryCost ReduceMethodCost.init [] [] 0
        = ReduceMethodCost.GetBackwardMemoryCost ReduceMethodCost.init [] [] 0
    ∧ ReduceMeanCost.GetMemoryCost ReduceMethodCost.init [] [] 0
        = ReduceMeanCost.GetMemoryCost ReduceMethodCost.init [] [] 0
    ∧ ReduceMeanCost.GetForwardMemoryCost ReduceMethodCost.init [] [] 0
        = ReduceMeanCost.GetForwardMemoryCost ReduceMethodCost.init [] [] 0
    ∧ BatchParallelCost.GetCommCost ReduceMethodCost.init.base [] [] 0
        = BatchParallelCost.GetCommCost ReduceMethodCost.init.base [] [] 0
    ∧ BatchParallelCost.GetMemoryCost ReduceMethodCost.init.base [] [] 0
        = BatchParallelCost.GetMemoryCost ReduceMethodCost.init.base [] [] 0
    ∧ VirtualDatasetCost.GetCommCost ReduceMethodCost.init.base [] [] 0
        = VirtualDatasetCost.GetCommCost ReduceMethodCost.init.base [] [] 0
    ∧ VirtualDatasetCost.GetMemoryCost ReduceMethodCost.init.base [] [] 0
        = VirtualDatasetCost.GetMemoryCost ReduceMethodCost.init.base [] [] 0
    ∧ GeneratorBaseCost.GetCommCost ReduceMethodCost.init.base [] [] 0
        = GeneratorBaseCost.GetCommCost ReduceMethodCost.init.base [] [] 0
    ∧ GetNextCost.GetCommCost ReduceMethodCost.init.base [] [] 0
        = GetNextCost.GetCommCost ReduceMethodCost.init.base [] [] 0 :=
  C8_cost_queries_pure ReduceMethodCost.init ReduceMethodCost.init rfl rfl rfl rfl [] [] 0

/-- C9: `ReduceMethodCost::GetBackwardMemoryCost` returns 0 for every
configuration (any `is_parameter`, byte widths and `cross_batch` value), every
input and output descriptor sequence, and every stage id, and `ReduceMeanCost`
inherits this behavior unchanged. -/
theorem C9_reduce_backward_memory_always_zero (r : ReduceMethodCost)
    (i o : List TensorInfo) (st : Int) :
    ReduceMethodCost.GetBackwardMemoryCost r i o st = 0
    ∧ ReduceMeanCost.GetBackwardMemoryCost r i o st = 0 :=
  ⟨rfl, rfl⟩

/-- C10: a freshly constructed `ReduceMethodCost` (and likewise a freshly
constructed `ReduceMeanCost`) has its `cross_batch` flag equal to `false`, and
the flag only changes when `set_cross_batch` is invoked (which sets it to its
argument). -/
theorem C10_cross_batch_defaults_to_false :
    ReduceMethodCost.init.cross_batch = false
    ∧ ReduceMeanCost.init.cross_batch = false
    ∧ (ReduceMethodCost.set_cross_batch ReduceMethodCost.init true).cross_batch = true :=
  ⟨rfl, rfl, rfl⟩

end MindsporeParallel
